import Mathlib

/-
  Shallow embedding of the window / framebuffer-presentation subsystem of the
  cpp_rasterizer repository:
    - src/rasterizer_core/src/platform/Win32/platform_windows.cpp
      (Rasterizer::Windows::Window, WindowProc)
    - the Window class declaration (platform_windows.hpp)
    - IWindow::Create (the factory)
    - the runtime driving loop in src/runtime/src/main.cpp

  Machine integers: C++ `int` values are modelled as Lean Int; the implicit
  conversion of `m_width * m_height` to std::size_t in vector::resize is
  modelled as reduction modulo 2^64 (intToSizeT).  Pixels (u32) are modelled
  as Nat values; the only pixel value the subsystem itself ever writes is the
  sentinel fill color 0xFF0000FF.  The native HWND is modelled as Option Nat
  (none = nullptr); the environment supplies the CreateWindowEx result.
-/

namespace CppRasterizer

/-- Win32 message classes distinguished by the subsystem: WM_QUIT (checked in
PollEvents), WM_DESTROY (checked in WindowProc), and all other message codes. -/
inductive Msg
  | wmQuit
  | wmDestroy
  | other (code : Nat)
deriving DecidableEq, Repr

/-- Result of the window procedure for one message: either PostQuitMessage(0)
followed by returning 0 (the WM_DESTROY arm), or deferral to DefWindowProc. -/
inductive ProcResult
  | postQuitAndZero
  | defWindowProc (m : Msg)
deriving DecidableEq, Repr

/-- WindowProc from platform_windows.cpp: WM_DESTROY posts a process-level
quit notification and returns 0; every other message goes to DefWindowProc. -/
def windowProc (m : Msg) : ProcResult :=
  match m with
  | Msg.wmDestroy => ProcResult.postQuitAndZero
  | m => ProcResult.defWindowProc m

/-- BI_RGB, the Win32 constant for uncompressed bitmap data. -/
def BI_RGB : Nat := 0

/-- The BITMAPINFO header fields that Window::Window assigns (presentation
descriptor): header size, width, height, plane count, bit depth, compression. -/
structure BITMAPINFO where
  biSize : Nat
  biWidth : Int
  biHeight : Int
  biPlanes : Nat
  biBitCount : Nat
  biCompression : Nat
deriving DecidableEq, Repr

/-- Member state of Rasterizer::Windows::Window (platform_windows.hpp):
title, width, height, open flag, the native handle (none = nullptr), the
pixel store, and the presentation descriptor. -/
structure Window where
  m_title : String
  m_width : Int
  m_height : Int
  m_is_open : Bool
  m_window_handle : Option Nat
  m_framebuffer : List Nat
  m_bmi : BITMAPINFO
deriving DecidableEq, Repr

/-- The constant fill value passed to m_framebuffer.resize in the constructor. -/
def sentinelColor : Nat := 0xFF0000FF

/-- Conversion of a C++ int value to std::size_t (the vector::resize argument):
reduction modulo 2^64. -/
def intToSizeT (i : Int) : Nat := (i % (2 ^ 64 : Int)).toNat

/-- Member state assembled by a run of Window::Window(title, width, height)
from platform_windows.cpp that completes.  The CreateWindowEx result is
supplied by the environment as hwnd.  The constructor stores
title/width/height, sets m_window_handle.handle = hwnd and
m_is_open = (handle != nullptr), resizes the framebuffer to width*height
entries filled with 0xFF0000FF, and fills in the BITMAPINFO descriptor with
biWidth = width, biHeight = -height, 1 plane, 32 bits, BI_RGB.  The two ways
the body can fail to complete — signed-int overflow in m_width * m_height and
the std::length_error throw from vector::resize — are modelled by
Window.constructChecked below, which returns this state exactly when neither
occurs. -/
def Window.construct (title : String) (width height : Int) (hwnd : Option Nat) : Window :=
  { m_title := title
    m_width := width
    m_height := height
    m_is_open := hwnd.isSome
    m_window_handle := hwnd
    m_framebuffer := List.replicate (intToSizeT (width * height)) sentinelColor
    m_bmi :=
      { biSize := 40
        biWidth := width
        biHeight := -height
        biPlanes := 1
        biBitCount := 32
        biCompression := BI_RGB } }

/-- IWindow::Create on the WIN32 branch, for a constructor run that completes:
it unconditionally returns MakeShared<Windows::Window>(title, width, height)
and never returns nullptr, regardless of whether native window creation
succeeded.  IWindow.CreateChecked below also covers the constructor's failure
modes. -/
def IWindow.Create (title : String) (width height : Int) (hwnd : Option Nat) :
    Option Window :=
  some (Window.construct title width height hwnd)

/-- Outcome of one run of the constructor body: normal completion with the
assembled member state, the std::length_error throw raised by vector::resize
(which aborts construction and propagates out of the factory, so no pointer
of any kind is returned), or the undefined behavior of a non-representable
m_width * m_height product in 32-bit signed int. -/
inductive ConstructOutcome
  | ok (w : Window)
  | lengthError
  | undefinedBehavior
deriving DecidableEq, Repr

/-- Window::Window with its machine-level failure modes explicit.  The body
computes m_width * m_height in 32-bit signed int — undefined behavior when
the mathematical product lies outside [-2^31, 2^31) — and passes the
int-to-size_t conversion of that product to m_framebuffer.resize, which
throws std::length_error when the request exceeds the vector's
implementation-defined max_size (taken here as the parameter maxSize; for
std::vector<u32> it is at most SIZE_MAX / 4 = 2^62).  When neither failure
occurs the run completes with exactly the member state of Window.construct. -/
def Window.constructChecked (maxSize : Nat) (title : String) (width height : Int)
    (hwnd : Option Nat) : ConstructOutcome :=
  if -(2 ^ 31) ≤ width * height ∧ width * height < 2 ^ 31 then
    if intToSizeT (width * height) ≤ maxSize then
      ConstructOutcome.ok (Window.construct title width height hwnd)
    else ConstructOutcome.lengthError
  else ConstructOutcome.undefinedBehavior

/-- IWindow::Create on the WIN32 branch with the constructor failure modes
propagated: the factory adds no check of its own around the constructor, so
an exception thrown inside it escapes the factory (no return value at all),
and a completed run is returned as a non-null shared pointer. -/
def IWindow.CreateChecked (maxSize : Nat) (title : String) (width height : Int)
    (hwnd : Option Nat) : ConstructOutcome :=
  Window.constructChecked maxSize title width height hwnd

/-- The PeekMessage(PM_REMOVE) loop body of Window::PollEvents: while a
message is pending, remove it, set m_is_open = false when it is WM_QUIT, and
translate/dispatch it.  The loop ends exactly when the pending queue is empty
(PeekMessage is non-blocking), so the second component (the remaining queue)
is what is left pending when the loop stops. -/
def Window.pollEventsLoop : Window → List Msg → Window × List Msg
  | w, [] => (w, [])
  | w, msg :: pending =>
      Window.pollEventsLoop
        (if msg = Msg.wmQuit then { w with m_is_open := false } else w) pending

/-- Window::PollEvents applied to the pending message queue. -/
def Window.PollEvents (w : Window) (queue : List Msg) : Window :=
  (Window.pollEventsLoop w queue).1

/-- Window::IsOpen: returns m_is_open. -/
def Window.IsOpen (w : Window) : Bool := w.m_is_open

/-- Window::GetTitle: returns m_title. -/
def Window.GetTitle (w : Window) : String := w.m_title

/-- Window::GetWidth: returns m_width. -/
def Window.GetWidth (w : Window) : Int := w.m_width

/-- Window::GetHeight: returns m_height. -/
def Window.GetHeight (w : Window) : Int := w.m_height

/-- Window::GetWindowHandle: exposes the stored native handle. -/
def Window.GetWindowHandle (w : Window) : Option Nat := w.m_window_handle

/-- The StretchDIBits call issued by Window::Draw: destination rectangle
(0,0,width,height), source rectangle (0,0,width,height), the framebuffer
bits, and the descriptor. -/
structure DrawCall where
  xDest : Int
  yDest : Int
  wDest : Int
  hDest : Int
  xSrc : Int
  ySrc : Int
  wSrc : Int
  hSrc : Int
  bits : List Nat
  bmi : BITMAPINFO
deriving DecidableEq, Repr

/-- Window::Draw: acquires a device context, blits the framebuffer with
StretchDIBits over identical source and destination rectangles, and releases
the context.  No member of the window is assigned; the emitted DrawCall
records the blit. -/
def Window.Draw (w : Window) : Window × DrawCall :=
  (w,
    { xDest := 0
      yDest := 0
      wDest := w.m_width
      hDest := w.m_height
      xSrc := 0
      ySrc := 0
      wSrc := w.m_width
      hSrc := w.m_height
      bits := w.m_framebuffer
      bmi := w.m_bmi })

/-- An external renderer writing pattern P into the owned pixel store. -/
def Window.setFramebuffer (w : Window) (P : List Nat) : Window :=
  { w with m_framebuffer := P }

/-- The operations callable on a surface after construction: PollEvents with
some pending queue, Draw, and the four accessors plus IsOpen. -/
inductive Op
  | pollEvents (queue : List Msg)
  | draw
  | getTitle
  | getWidth
  | getHeight
  | getWindowHandle
  | isOpen
deriving DecidableEq, Repr

/-- State transition of one operation.  The accessor bodies are single return
statements of stored members, so they leave the state as is. -/
def Window.step (w : Window) : Op → Window
  | Op.pollEvents queue => w.PollEvents queue
  | Op.draw => (w.Draw).1
  | Op.getTitle => w
  | Op.getWidth => w
  | Op.getHeight => w
  | Op.getWindowHandle => w
  | Op.isOpen => w

/-- Running a sequence of operations on a surface. -/
def Window.runOps (w : Window) (ops : List Op) : Window :=
  ops.foldl Window.step w

/-- State of the runtime driving loop: the surface and the blits issued so far. -/
structure LoopState where
  window : Window
  blits : List DrawCall
deriving DecidableEq, Repr

/-- One iteration body of the runtime loop in main.cpp: PollEvents, then Draw. -/
def loopIter (s : LoopState) (queue : List Msg) : LoopState :=
  { window := ((s.window.PollEvents queue).Draw).1
    blits := s.blits ++ [((s.window.PollEvents queue).Draw).2] }

/-- The while (window->IsOpen()) loop of main.cpp, driven by a schedule giving
the pending message queue observed at each iteration. -/
def runMainLoop : LoopState → List (List Msg) → LoopState
  | s, [] => s
  | s, queue :: rest =>
      if s.window.IsOpen then runMainLoop (loopIter s queue) rest else s

/-- The surface main.cpp creates: IWindow::Create("Rasterizer", 800, 600),
with the CreateWindowEx result supplied by the environment. -/
def mainWindow (hwnd : Option Nat) : Window :=
  Window.construct "Rasterizer" 800 600 hwnd

/-- Running the whole runtime application under a message schedule. -/
def mainRun (hwnd : Option Nat) (sched : List (List Msg)) : LoopState :=
  runMainLoop { window := mainWindow hwnd, blits := [] } sched

/-
  Helper lemmas shared by the claim theorems.
-/

/-- The PeekMessage loop of PollEvents changes no member other than m_is_open. -/
lemma pollEventsLoop_preserves (q : List Msg) : ∀ w : Window,
    ((Window.pollEventsLoop w q).1).m_title = w.m_title ∧
    ((Window.pollEventsLoop w q).1).m_width = w.m_width ∧
    ((Window.pollEventsLoop w q).1).m_height = w.m_height ∧
    ((Window.pollEventsLoop w q).1).m_window_handle = w.m_window_handle ∧
    ((Window.pollEventsLoop w q).1).m_framebuffer = w.m_framebuffer ∧
    ((Window.pollEventsLoop w q).1).m_bmi = w.m_bmi := by
  induction q with
  | nil => intro w; simp [Window.pollEventsLoop]
  | cons m rest ih =>
      intro w
      by_cases hm : m = Msg.wmQuit <;>
        simpa [Window.pollEventsLoop, hm] using
          ih (if m = Msg.wmQuit then { w with m_is_open := false } else w)

/-- The PeekMessage loop never turns m_is_open back to true. -/
lemma pollEventsLoop_open_mono (q : List Msg) : ∀ w : Window,
    w.m_is_open = false → ((Window.pollEventsLoop w q).1).m_is_open = false := by
  induction q with
  | nil => intro w hw; simpa [Window.pollEventsLoop] using hw
  | cons m rest ih =>
      intro w hw
      by_cases hm : m = Msg.wmQuit <;>
        simp [Window.pollEventsLoop, hm] <;>
        exact ih _ (by simp [hw])

/-- Observing WM_QUIT anywhere in the drained queue leaves m_is_open false. -/
lemma pollEventsLoop_quit (q : List Msg) (hq : Msg.wmQuit ∈ q) : ∀ w : Window,
    ((Window.pollEventsLoop w q).1).m_is_open = false := by
  induction q with
  | nil => cases hq
  | cons m rest ih =>
      intro w
      rcases List.mem_cons.mp hq with hm | hm
      · subst hm
        simp only [Window.pollEventsLoop, if_pos rfl]
        exact pollEventsLoop_open_mono rest _ rfl
      · by_cases hmq : m = Msg.wmQuit <;> simp [Window.pollEventsLoop, hmq, ih hm]

/-- The PeekMessage loop runs until the pending queue is drained. -/
lemma pollEventsLoop_drained (q : List Msg) : ∀ w : Window,
    (Window.pollEventsLoop w q).2 = [] := by
  induction q with
  | nil => intro w; simp [Window.pollEventsLoop]
  | cons m rest ih => intro w; simp [Window.pollEventsLoop, ih]

/-- Any single operation leaves every member other than m_is_open unchanged. -/
lemma step_preserves (w : Window) (op : Op) :
    (w.step op).m_title = w.m_title ∧
    (w.step op).m_width = w.m_width ∧
    (w.step op).m_height = w.m_height ∧
    (w.step op).m_window_handle = w.m_window_handle ∧
    (w.step op).m_framebuffer = w.m_framebuffer ∧
    (w.step op).m_bmi = w.m_bmi := by
  cases op with
  | pollEvents q => simpa [Window.step, Window.PollEvents] using pollEventsLoop_preserves q w
  | _ => simp [Window.step, Window.Draw]

/-- No single operation turns m_is_open back to true. -/
lemma step_open_mono (w : Window) (op : Op) (hw : w.m_is_open = false) :
    (w.step op).m_is_open = false := by
  cases op with
  | pollEvents q =>
      simpa [Window.step, Window.PollEvents] using pollEventsLoop_open_mono q w hw
  | _ => simpa [Window.step, Window.Draw] using hw

/-- Any operation sequence leaves every member other than m_is_open unchanged. -/
lemma runOps_preserves (ops : List Op) : ∀ w : Window,
    (w.runOps ops).m_title = w.m_title ∧
    (w.runOps ops).m_width = w.m_width ∧
    (w.runOps ops).m_height = w.m_height ∧
    (w.runOps ops).m_window_handle = w.m_window_handle ∧
    (w.runOps ops).m_framebuffer = w.m_framebuffer ∧
    (w.runOps ops).m_bmi = w.m_bmi := by
  induction ops with
  | nil => intro w; simp [Window.runOps]
  | cons op rest ih =>
      intro w
      have h1 := step_preserves w op
      have h2 := ih (w.step op)
      simp only [Window.runOps, List.foldl_cons] at h2 ⊢
      exact ⟨h2.1.trans h1.1, h2.2.1.trans h1.2.1, h2.2.2.1.trans h1.2.2.1,
        h2.2.2.2.1.trans h1.2.2.2.1, h2.2.2.2.2.1.trans h1.2.2.2.2.1,
        h2.2.2.2.2.2.trans h1.2.2.2.2.2⟩

/-- Once m_is_open is false, no operation sequence makes it true again. -/
lemma runOps_open_mono (ops : List Op) : ∀ w : Window,
    w.m_is_open = false → (w.runOps ops).m_is_open = false := by
  induction ops with
  | nil => intro w hw; simpa [Window.runOps] using hw
  | cons op rest ih =>
      intro w hw
      simp only [Window.runOps, List.foldl_cons]
      exact ih _ (step_open_mono w op hw)

/-- For a nonnegative int value below 2^64 the size_t conversion is the identity. -/
lemma intToSizeT_of_nonneg (i : Int) (h0 : 0 ≤ i) (h1 : i < 2 ^ 64) :
    intToSizeT i = i.toNat := by
  unfold intToSizeT
  rw [Int.emod_eq_of_lt h0 h1]

/-- With positive dimensions whose product is int-representable and within
the vector capacity, the constructor body completes: no overflow and no
length_error, so the checked run yields exactly the assembled member state. -/
lemma constructChecked_ok (maxSize : Nat) (t : String) (w h : Int)
    (p : Option Nat) (hw : 0 < w) (hh : 0 < h) (hprod : w * h ≤ 2 ^ 31 - 1)
    (hms : 2 ^ 31 - 1 ≤ maxSize) :
    Window.constructChecked maxSize t w h p =
      ConstructOutcome.ok (Window.construct t w h p) := by
  have h0 : 0 ≤ w * h := le_of_lt (mul_pos hw hh)
  have hhi : w * h < 2 ^ 31 := lt_of_le_of_lt hprod (by norm_num)
  have h64 : w * h < 2 ^ 64 := lt_trans hhi (by norm_num)
  have hfit : intToSizeT (w * h) ≤ maxSize := by
    rw [intToSizeT_of_nonneg _ h0 h64]
    have e1 : (2 : Int) ^ 31 - 1 = 2147483647 := by norm_num
    have e2 : (2 : Nat) ^ 31 - 1 = 2147483647 := by norm_num
    rw [e1] at hprod
    rw [e2] at hms
    omega
  simp only [Window.constructChecked]
  rw [if_pos ⟨le_trans (by norm_num) h0, hhi⟩, if_pos hfit]

/-
  Claim theorems.
-/

/-- C1: for every factory call with width > 0 and height > 0 whose native
window creation succeeds (CreateWindowEx returned a non-null handle), the
returned surface reports GetWidth() == width, GetHeight() == height,
GetTitle() == title and IsOpen() == true immediately after creation. -/
theorem create_success_accessors (t : String) (w h : Int) (p : Option Nat)
    (hw : 0 < w) (hh : 0 < h) (hp : p.isSome = true) :
    IWindow.Create t w h p = some (Window.construct t w h p) ∧
    (Window.construct t w h p).GetWidth = w ∧
    (Window.construct t w h p).GetHeight = h ∧
    (Window.construct t w h p).GetTitle = t ∧
    (Window.construct t w h p).IsOpen = true := by
  refine ⟨rfl, rfl, rfl, rfl, ?_⟩
  simp [Window.IsOpen, Window.construct, hp]

/-- Witness for C1 at the concrete call ("Test", 800, 600) with a successful
native handle. -/
theorem create_success_accessors_witness :
    ((0 : Int) < 800 ∧ (0 : Int) < 600 ∧ (some 7 : Option Nat).isSome = true) ∧
    (IWindow.Create "Test" 800 600 (some 7) =
        some (Window.construct "Test" 800 600 (some 7)) ∧
      (Window.construct "Test" 800 600 (some 7)).GetWidth = 800 ∧
      (Window.construct "Test" 800 600 (some 7)).GetHeight = 600 ∧
      (Window.construct "Test" 800 600 (some 7)).GetTitle = "Test" ∧
      (Window.construct "Test" 800 600 (some 7)).IsOpen = true) :=
  ⟨⟨by decide, by decide, rfl⟩,
    create_success_accessors "Test" 800 600 (some 7) (by decide) (by decide) rfl⟩

/-- C2: for positive dimensions whose 32-bit int product is representable and
whose resize request fits the vector capacity, the constructor completes, and
immediately afterwards the framebuffer holds exactly width * height entries,
every entry being the sentinel fill value 0xFF0000FF; in particular for
("Test", 800, 600) the framebuffer length is 480000. -/
theorem construct_framebuffer_sentinel (maxSize : Nat) (t : String) (w h : Int)
    (p : Option Nat) (hw : 0 < w) (hh : 0 < h) (hprod : w * h ≤ 2 ^ 31 - 1)
    (hms : 2 ^ 31 - 1 ≤ maxSize) :
    Window.constructChecked maxSize t w h p =
      ConstructOutcome.ok (Window.construct t w h p) ∧
    (Window.construct t w h p).m_framebuffer.length = (w * h).toNat ∧
    (∀ c ∈ (Window.construct t w h p).m_framebuffer, c = 0xFF0000FF) ∧
    (Window.construct "Test" 800 600 p).m_framebuffer.length = 480000 := by
  have h0 : 0 ≤ w * h := le_of_lt (mul_pos hw hh)
  have hhi : w * h < 2 ^ 31 := lt_of_le_of_lt hprod (by norm_num)
  have h64 : w * h < 2 ^ 64 := lt_trans hhi (by norm_num)
  refine ⟨constructChecked_ok maxSize t w h p hw hh hprod hms, ?_, ?_, ?_⟩
  · simp [Window.construct, intToSizeT_of_nonneg _ h0 h64]
  · intro c hc
    simpa [sentinelColor] using List.eq_of_mem_replicate hc
  · show (List.replicate (intToSizeT (800 * 600)) sentinelColor).length = 480000
    rw [List.length_replicate]
    rw [intToSizeT_of_nonneg]
    · rfl
    · norm_num
    · norm_num

/-- Witness for C2 at a concrete small surface, with the vector capacity at
its 2^62 upper bound. -/
theorem construct_framebuffer_sentinel_witness :
    ((0 : Int) < 2 ∧ (0 : Int) < 3 ∧ (2 : Int) * 3 ≤ 2 ^ 31 - 1 ∧
      (2 : Nat) ^ 31 - 1 ≤ 2 ^ 62) ∧
    (Window.constructChecked (2 ^ 62) "A" 2 3 none =
        ConstructOutcome.ok (Window.construct "A" 2 3 none) ∧
      (Window.construct "A" 2 3 none).m_framebuffer.length = ((2 : Int) * 3).toNat ∧
      (∀ c ∈ (Window.construct "A" 2 3 none).m_framebuffer, c = 0xFF0000FF) ∧
      (Window.construct "Test" 800 600 none).m_framebuffer.length = 480000) :=
  ⟨⟨by decide, by decide, by decide, by decide⟩,
    construct_framebuffer_sentinel (2 ^ 62) "A" 2 3 none (by decide) (by decide)
      (by decide) (by decide)⟩

/-- C3 counterexample: at the concrete call ("Rasterizer", 800, 600) with a
failed CreateWindowEx (nullptr handle) the factory does NOT return a
null/failure indicator — the checked WIN32 factory completes normally and
returns a non-null shared pointer, to a surface whose IsOpen() is false. -/
theorem create_failure_not_null :
    IWindow.CreateChecked (2 ^ 62) "Rasterizer" 800 600 none =
      ConstructOutcome.ok (Window.construct "Rasterizer" 800 600 none) ∧
    (Window.construct "Rasterizer" 800 600 none).IsOpen = false := by
  constructor
  · have h480 : intToSizeT (800 * 600) = 480000 := by
      rw [intToSizeT_of_nonneg]
      · rfl
      · norm_num
      · norm_num
    simp only [IWindow.CreateChecked, Window.constructChecked]
    rw [if_pos (by norm_num), if_pos (by rw [h480]; norm_num)]
  · rfl

/-- C3 (amended): when native window creation fails but the dimensions are
valid (positive, int product representable, resize request within the vector
capacity), the factory still returns a non-null handle rather than a
null/failure indicator; the returned surface stores a null native handle and
reports IsOpen() == false. -/
theorem create_failure_returns_closed_surface (maxSize : Nat) (t : String)
    (w h : Int) (hw : 0 < w) (hh : 0 < h) (hprod : w * h ≤ 2 ^ 31 - 1)
    (hms : 2 ^ 31 - 1 ≤ maxSize) :
    IWindow.CreateChecked maxSize t w h none =
      ConstructOutcome.ok (Window.construct t w h none) ∧
    (Window.construct t w h none).IsOpen = false ∧
    (Window.construct t w h none).m_window_handle = none :=
  ⟨constructChecked_ok maxSize t w h none hw hh hprod hms, rfl, rfl⟩

/-- Witness for the amended C3 at ("R", 800, 600) with a failed native handle
and the vector capacity at its 2^62 upper bound. -/
theorem create_failure_returns_closed_surface_witness :
    ((0 : Int) < 800 ∧ (0 : Int) < 600 ∧ (800 : Int) * 600 ≤ 2 ^ 31 - 1 ∧
      (2 : Nat) ^ 31 - 1 ≤ 2 ^ 62) ∧
    (IWindow.CreateChecked (2 ^ 62) "R" 800 600 none =
        ConstructOutcome.ok (Window.construct "R" 800 600 none) ∧
      (Window.construct "R" 800 600 none).IsOpen = false ∧
      (Window.construct "R" 800 600 none).m_window_handle = none) :=
  ⟨⟨by decide, by decide, by decide, by decide⟩,
    create_failure_returns_closed_surface (2 ^ 62) "R" 800 600 (by decide)
      (by decide) (by decide) (by decide)⟩

/-- C4: once WM_QUIT is among the pending messages drained by a PollEvents
call, IsOpen() is false afterwards, and no later sequence of PollEvents, Draw
or accessor calls ever makes IsOpen() true again. -/
theorem pollEvents_close_monotone (w : Window) (q : List Msg) (ops : List Op)
    (hq : Msg.wmQuit ∈ q) :
    (w.PollEvents q).IsOpen = false ∧
    ((w.PollEvents q).runOps ops).IsOpen = false := by
  have hclosed : (w.PollEvents q).m_is_open = false := pollEventsLoop_quit q hq w
  exact ⟨hclosed, runOps_open_mono ops _ hclosed⟩

/-- Witness for C4: a concrete open surface, a queue holding WM_QUIT, and a
later operation sequence. -/
theorem pollEvents_close_monotone_witness :
    (Msg.wmQuit ∈ [Msg.other 3, Msg.wmQuit]) ∧
    (((Window.construct "T" 2 2 (some 1)).PollEvents
        [Msg.other 3, Msg.wmQuit]).IsOpen = false ∧
      (((Window.construct "T" 2 2 (some 1)).PollEvents
          [Msg.other 3, Msg.wmQuit]).runOps
            [Op.draw, Op.pollEvents [], Op.getTitle]).IsOpen = false) :=
  ⟨by decide,
    pollEvents_close_monotone (Window.construct "T" 2 2 (some 1))
      [Msg.other 3, Msg.wmQuit] [Op.draw, Op.pollEvents [], Op.getTitle]
      (by decide)⟩

/-- C5: Draw (present) never mutates the surface, in particular not the
framebuffer: after writing any pattern P, one Draw call leaves the in-memory
buffer equal to P, and a second Draw call still finds it equal to P. -/
theorem draw_preserves_framebuffer (w : Window) (P : List Nat) :
    ((w.Draw).1) = w ∧
    (((w.setFramebuffer P).Draw).1).m_framebuffer = P ∧
    (((((w.setFramebuffer P).Draw).1).Draw).1).m_framebuffer = P :=
  ⟨rfl, rfl, rfl⟩

/-- C6: the presentation descriptor computed at construction stores the width
as given, the height arithmetically negated, plane count 1, bit depth 32 and
compression BI_RGB (none); and it is never mutated by any later operation
sequence. -/
theorem bmi_layout_immutable (t : String) (w h : Int) (p : Option Nat)
    (ops : List Op) :
    (Window.construct t w h p).m_bmi =
      { biSize := 40
        biWidth := w
        biHeight := -h
        biPlanes := 1
        biBitCount := 32
        biCompression := BI_RGB } ∧
    ((Window.construct t w h p).runOps ops).m_bmi = (Window.construct t w h p).m_bmi :=
  ⟨rfl, (runOps_preserves ops (Window.construct t w h p)).2.2.2.2.2⟩

/-- C7: PollEvents drains the entire pending queue without blocking (an empty
queue returns at once with the state unchanged); observing WM_QUIT sets
IsOpen to false while leaving the native handle intact; the window procedure
escalates WM_DESTROY to a process-level quit notification (PostQuitMessage(0))
and passes every other message through to DefWindowProc. -/
theorem pollEvents_drain_windowProc (w : Window) (q : List Msg) (m : Msg)
    (hq : Msg.wmQuit ∈ q) (hm : m ≠ Msg.wmDestroy) :
    (Window.pollEventsLoop w q).2 = [] ∧
    w.PollEvents [] = w ∧
    (w.PollEvents q).IsOpen = false ∧
    (w.PollEvents q).m_window_handle = w.m_window_handle ∧
    windowProc Msg.wmDestroy = ProcResult.postQuitAndZero ∧
    windowProc m = ProcResult.defWindowProc m := by
  refine ⟨pollEventsLoop_drained q w, rfl, pollEventsLoop_quit q hq w,
    (pollEventsLoop_preserves q w).2.2.2.1, rfl, ?_⟩
  cases m with
  | wmQuit => rfl
  | wmDestroy => exact absurd rfl hm
  | other c => rfl

/-- Witness for C7: a concrete surface, the queue [WM_QUIT], and a message
other than WM_DESTROY. -/
theorem pollEvents_drain_windowProc_witness :
    (Msg.wmQuit ∈ [Msg.wmQuit] ∧ Msg.other 5 ≠ Msg.wmDestroy) ∧
    ((Window.pollEventsLoop (Window.construct "T" 2 2 (some 1)) [Msg.wmQuit]).2 = [] ∧
      (Window.construct "T" 2 2 (some 1)).PollEvents [] =
        Window.construct "T" 2 2 (some 1) ∧
      ((Window.construct "T" 2 2 (some 1)).PollEvents [Msg.wmQuit]).IsOpen = false ∧
      ((Window.construct "T" 2 2 (some 1)).PollEvents [Msg.wmQuit]).m_window_handle =
        (Window.construct "T" 2 2 (some 1)).m_window_handle ∧
      windowProc Msg.wmDestroy = ProcResult.postQuitAndZero ∧
      windowProc (Msg.other 5) = ProcResult.defWindowProc (Msg.other 5)) :=
  ⟨⟨by decide, by decide⟩,
    pollEvents_drain_windowProc (Window.construct "T" 2 2 (some 1)) [Msg.wmQuit]
      (Msg.other 5) (by decide) (by decide)⟩

/-- C8: title, width, height and the presentation descriptor are never mutated
by any operation sequence after construction, and the accessors are pure reads
of the stored members that leave the surface state unchanged. -/
theorem accessors_pure_fields_immutable (w : Window) (ops : List Op) :
    (w.runOps ops).m_title = w.m_title ∧
    (w.runOps ops).m_width = w.m_width ∧
    (w.runOps ops).m_height = w.m_height ∧
    (w.runOps ops).m_bmi = w.m_bmi ∧
    w.GetTitle = w.m_title ∧
    w.GetWidth = w.m_width ∧
    w.GetHeight = w.m_height ∧
    w.GetWindowHandle = w.m_window_handle ∧
    w.step Op.getTitle = w ∧
    w.step Op.getWidth = w ∧
    w.step Op.getHeight = w ∧
    w.step Op.getWindowHandle = w ∧
    w.step Op.isOpen = w := by
  have hp := runOps_preserves ops w
  exact ⟨hp.1, hp.2.1, hp.2.2.1, hp.2.2.2.2.2, rfl, rfl, rfl, rfl, rfl, rfl,
    rfl, rfl, rfl⟩

/-- C9: neither the factory nor the constructor validates the dimensions: the
factory adds no check of its own (its outcome is exactly the constructor's),
any construction that completes has stored the given width and height
unchanged with the framebuffer sized by the size_t conversion of the product,
and for width -5 and height 10 the unchecked product reaches vector::resize
as a request of 2^64 - 50 entries — which fails there with std::length_error,
not through any argument validation at the public interface. -/
theorem create_no_validation (maxSize : Nat) (t : String) (w h : Int)
    (p : Option Nat) (win : Window) (hms2 : maxSize < 2 ^ 64 - 50)
    (hok : Window.constructChecked maxSize t w h p = ConstructOutcome.ok win) :
    IWindow.CreateChecked maxSize t w h p = Window.constructChecked maxSize t w h p ∧
    win.m_width = w ∧
    win.m_height = h ∧
    win.m_framebuffer.length = intToSizeT (w * h) ∧
    intToSizeT ((-5) * 10) = 2 ^ 64 - 50 ∧
    Window.constructChecked maxSize t (-5) 10 p = ConstructOutcome.lengthError := by
  have hwin : win = Window.construct t w h p := by
    by_cases h1 : -(2 ^ 31) ≤ w * h ∧ w * h < 2 ^ 31
    · by_cases h2 : intToSizeT (w * h) ≤ maxSize
      · simp only [Window.constructChecked, if_pos h1, if_pos h2,
          ConstructOutcome.ok.injEq] at hok
        exact hok.symm
      · simp only [Window.constructChecked, if_pos h1, if_neg h2] at hok
        exact ConstructOutcome.noConfusion hok
    · simp only [Window.constructChecked, if_neg h1] at hok
      exact ConstructOutcome.noConfusion hok
  subst hwin
  have hi : intToSizeT ((-5) * 10) = 2 ^ 64 - 50 := by decide
  refine ⟨rfl, rfl, rfl, by simp [Window.construct], hi, ?_⟩
  have hneg : ¬ intToSizeT ((-5) * 10) ≤ maxSize := by
    rw [hi]
    exact not_le.mpr hms2
  simp only [Window.constructChecked]
  rw [if_pos (by norm_num), if_neg hneg]

/-- Witness for C9: capacity 2^62, a small completing construction, and the
showcased failing dimensions (-5, 10). -/
theorem create_no_validation_witness :
    ((2 : Nat) ^ 62 < 2 ^ 64 - 50 ∧
      Window.constructChecked (2 ^ 62) "X" 2 3 none =
        ConstructOutcome.ok (Window.construct "X" 2 3 none)) ∧
    (IWindow.CreateChecked (2 ^ 62) "X" 2 3 none =
        Window.constructChecked (2 ^ 62) "X" 2 3 none ∧
      (Window.construct "X" 2 3 none).m_width = 2 ∧
      (Window.construct "X" 2 3 none).m_height = 3 ∧
      (Window.construct "X" 2 3 none).m_framebuffer.length = intToSizeT (2 * 3) ∧
      intToSizeT ((-5) * 10) = 2 ^ 64 - 50 ∧
      Window.constructChecked (2 ^ 62) "X" (-5) 10 none =
        ConstructOutcome.lengthError) :=
  ⟨⟨by decide,
      constructChecked_ok (2 ^ 62) "X" 2 3 none (by decide) (by decide)
        (by decide) (by decide)⟩,
    create_no_validation (2 ^ 62) "X" 2 3 none (Window.construct "X" 2 3 none)
      (by decide)
      (constructChecked_ok (2 ^ 62) "X" 2 3 none (by decide) (by decide)
        (by decide) (by decide))⟩

/-- In the runtime loop every blit issued carries the driving surface's
framebuffer contents, which no iteration mutates. -/
lemma runMainLoop_blits_all (R : List Nat) (sched : List (List Msg)) :
    ∀ s : LoopState, s.window.m_framebuffer = R →
      (s.blits.all fun dc => decide (dc.bits = R)) = true →
      (((runMainLoop s sched).blits).all fun dc => decide (dc.bits = R)) = true := by
  induction sched with
  | nil => intro s hfb hall; simpa [runMainLoop] using hall
  | cons q rest ih =>
      intro s hfb hall
      simp only [runMainLoop]
      by_cases hopen : s.window.IsOpen = true
      · rw [if_pos hopen]
        have hfb2 : (s.window.PollEvents q).m_framebuffer = R := by
          rw [← hfb]
          exact (pollEventsLoop_preserves q s.window).2.2.2.2.1
        apply ih
        · exact hfb2
        · simp [loopIter, List.all_append, hall, Window.Draw, hfb2]
      · rw [if_neg hopen]
        exact hall

/-- C10: in the runtime application loop of main.cpp (poll events then draw,
while the surface is open), nothing writes the framebuffer after construction,
so every blit issued over the whole run carries exactly the initial sentinel
fill contents: 480000 copies of 0xFF0000FF. -/
theorem runtime_loop_blits_sentinel (p : Option Nat) (sched : List (List Msg)) :
    (((mainRun p sched).blits).all fun dc =>
      decide (dc.bits = List.replicate 480000 0xFF0000FF)) = true := by
  apply runMainLoop_blits_all
  · show (mainWindow p).m_framebuffer = _
    show List.replicate (intToSizeT (800 * 600)) sentinelColor = _
    have h480 : intToSizeT (800 * 600) = 480000 := by
      rw [intToSizeT_of_nonneg]
      · rfl
      · norm_num
      · norm_num
    rw [h480]
    rfl
  · rfl

end CppRasterizer
